import Mathlib

/-!
Verification of the registration-intake backend (Trading-Backend).

Strings from the JavaScript source are embedded as `List Char`; JS
`String.prototype.replace(/\D/g, '')` becomes a `List.filter`, regular
expressions become explicit character predicates, and each controller or
middleware function becomes a pure Lean function over an explicit state
(database record, set of on-disk paths, fault oracle for the file system).
-/

/- ===== Shared string helpers (JS string / regex primitives) ===== -/

/-- JS `value.replace(/\D/g, '')`: keep only the decimal digits. -/
def stripNonDigits (s : List Char) : List Char := s.filter Char.isDigit

/-- The JS regex class `\s` (whitespace), as used by `RegExp.test`. -/
def jsIsSpaceChar (c : Char) : Bool :=
  c == ' ' || c == '\t' || c == '\n' || c == '\r' || c == '\x0b' || c == '\x0c' ||
  c.toNat == 0xa0 || c.toNat == 0x1680 ||
  (0x2000 ≤ c.toNat && c.toNat ≤ 0x200a) ||
  c.toNat == 0x2028 || c.toNat == 0x2029 || c.toNat == 0x202f ||
  c.toNat == 0x205f || c.toNat == 0x3000 || c.toNat == 0xfeff

/- ===== src/middleware/validation.js : customValidators.isValidAadhaar ===== -/

/-- JS regex `/^\d{12}$/` applied to a string. -/
def regexTwelveDigits (s : List Char) : Bool :=
  s.length == 12 && s.all Char.isDigit

/-- JS regex `/^[2-9]/` applied to a string. -/
def regexFirstDigit2to9 (s : List Char) : Bool :=
  match s with
  | c :: _ => decide ('2' ≤ c ∧ c ≤ '9')
  | [] => false

/-- JS regex `/^(\d)\1{11}$/` applied to a string: twelve copies of one digit. -/
def regexAllSameDigit (s : List Char) : Bool :=
  match s with
  | c :: rest => c.isDigit && rest.length == 11 && rest.all (· == c)
  | [] => false

/-- Function `customValidators.isValidAadhaar` from src/middleware/validation.js
(lines 5-32); the anonymous `aadharNumber` schema validator in
src/models/Registration.js (lines 93-121) is character-for-character the
same code. `if (!value) return false` is the JS falsiness test on a
string, i.e. the empty-string test. -/
def isValidAadhaar (value : List Char) : Bool :=
  if value.isEmpty then false
  else
    let cleanNumber := stripNonDigits value
    if !(regexTwelveDigits cleanNumber) then false
    else if !(regexFirstDigit2to9 cleanNumber) then false
    else if regexAllSameDigit cleanNumber then false
    else if cleanNumber == "123456789012".data || cleanNumber == "987654321098".data then
      false
    else true

/-- Claim-side reading of "first digit is in 2-9". -/
def firstDigitIn2to9 (d : List Char) : Bool :=
  match d.head? with
  | some c => decide ('2' ≤ c ∧ c ≤ '9')
  | none => false

/-- Claim-side reading of "digits are all identical". -/
def allIdenticalDigits (d : List Char) : Bool :=
  match d with
  | c :: rest => rest.all (· == c)
  | [] => true

/-- Written from the words of claim C4: accepted iff, after stripping all
non-digit characters, the result is exactly 12 digits whose first digit is
in 2-9, whose digits are not all identical, and which equals neither
banned constant. -/
def aadhaarClaimAccepts (value : List Char) : Bool :=
  let d := value.filter Char.isDigit
  d.length == 12 && firstDigitIn2to9 d && !(allIdenticalDigits d) &&
  d != "123456789012".data && d != "987654321098".data

/-- src/controllers/registrationController.js line 141:
`aadharNumber: aadharNumber.replace(/\D/g, '')` when building the record. -/
def controllerStoredAadhar (value : List Char) : List Char := stripNonDigits value

/-- The `pre('save')` hook of src/models/Registration.js (lines 261-278)
re-strips the Aadhaar number just before the write. -/
def preSaveAadhar (value : List Char) : List Char := stripNonDigits value

/-- Value actually persisted for an accepted submission: the controller
strips the input, and the pre-save hook strips again. -/
def persistedAadhaar (value : List Char) : List Char :=
  preSaveAadhar (controllerStoredAadhar value)

theorem stripNonDigits_all_digit (s : List Char) :
    (stripNonDigits s).all Char.isDigit = true := by
  simp [stripNonDigits, List.all_eq_true]

theorem stripNonDigits_idem (s : List Char) :
    stripNonDigits (stripNonDigits s) = stripNonDigits s := by
  simp [stripNonDigits, List.filter_filter]

theorem aadhaarIfChain (a b s k1 k2 : Bool) :
    (if !a then false
     else if !b then false
     else if s then false
     else if k1 || k2 then false
     else true) = (a && b && !s && !k1 && !k2) := by
  revert a b s k1 k2
  decide

theorem regexFirstDigit_eq (d : List Char) :
    regexFirstDigit2to9 d = firstDigitIn2to9 d := by
  cases d <;> rfl

theorem regexTwelve_of_all (d : List Char) (hall : d.all Char.isDigit = true) :
    regexTwelveDigits d = (d.length == 12) := by
  simp [regexTwelveDigits, hall]

theorem regexSame_eq (c : Char) (rest : List Char) (hcd : c.isDigit = true)
    (h11 : (rest.length == 11) = true) :
    regexAllSameDigit (c :: rest) = allIdenticalDigits (c :: rest) := by
  simp [regexAllSameDigit, allIdenticalDigits, hcd, h11]

/-- Core of the C4 comparison, stated over the already-stripped digit list. -/
theorem aadhaarDecisionCore (d : List Char) (hall : d.all Char.isDigit = true) :
    (if !(regexTwelveDigits d) then false
     else if !(regexFirstDigit2to9 d) then false
     else if regexAllSameDigit d then false
     else if d == "123456789012".data || d == "987654321098".data then false
     else true) =
    (d.length == 12 && firstDigitIn2to9 d && !(allIdenticalDigits d) &&
     d != "123456789012".data && d != "987654321098".data) := by
  rw [regexFirstDigit_eq, regexTwelve_of_all d hall]
  cases h12 : (d.length == 12) with
  | false =>
    simp [h12]
  | true =>
    cases d with
    | nil => simp at h12
    | cons c rest =>
      have hcd : c.isDigit = true := by
        rw [List.all_cons] at hall
        exact (Bool.and_eq_true_iff.mp hall).1
      have h11 : (rest.length == 11) = true := by
        simp only [List.length_cons, beq_iff_eq] at h12 ⊢
        omega
      rw [regexSame_eq c rest hcd h11]
      rw [show ((c :: rest) != "123456789012".data)
            = !((c :: rest) == "123456789012".data) from rfl,
          show ((c :: rest) != "987654321098".data)
            = !((c :: rest) == "987654321098".data) from rfl]
      rw [aadhaarIfChain]

/-- C4: the admission decision of `isValidAadhaar` coincides on every input
with the claim's characterisation (strip to digits; exactly 12 of them;
first digit 2-9; not all identical; neither banned constant), and the value
persisted for an accepted submission is exactly the stripped digit string. -/
theorem c4_aadhaar_accept_iff_and_persisted (value : List Char) :
    isValidAadhaar value = aadhaarClaimAccepts value ∧
    persistedAadhaar value = stripNonDigits value := by
  refine ⟨?_, stripNonDigits_idem value⟩
  by_cases hv : value = []
  · subst hv
    decide
  · have hne : value.isEmpty = false := by
      cases value with
      | nil => exact absurd rfl hv
      | cons a as => rfl
    have hcore := aadhaarDecisionCore (stripNonDigits value)
      (stripNonDigits_all_digit value)
    unfold isValidAadhaar aadhaarClaimAccepts
    rw [hne]
    simpa [stripNonDigits] using hcore

/- ===== src/config/multer.js : createStorage (filename/path generator) ===== -/

/-- The basename part Node's `path` module works on: everything after the
last path separator. -/
def afterLastSlash (s : List Char) : List Char :=
  (s.reverse.takeWhile (· != '/')).reverse

/-- Node `path.extname`: the substring of the basename from its last dot,
empty when there is no dot or when the only dot is the leading one. -/
def jsExtname (name : List Char) : List Char :=
  let b := afterLastSlash name
  match b.reverse.findIdx? (· == '.') with
  | none => []
  | some j => if j + 1 == b.reverse.length then [] else b.drop (b.length - 1 - j)

/-- Node `path.basename(name, ext)`: the basename, with `ext` removed when
it is a proper suffix of it. -/
def jsBasename (name ext : List Char) : List Char :=
  let b := afterLastSlash name
  if ext != [] && b != ext && ext.isSuffixOf b then b.take (b.length - ext.length)
  else b

/-- Sanitization `baseName.replace(/[^a-zA-Z0-9]/g, underscore)` from createStorage. -/
def sanitizeBaseName (s : List Char) : List Char :=
  s.map (fun c => if c.isAlphanum then c else '_')

/-- The `filename` callback of `createStorage` in src/config/multer.js
(lines 32-50): `${timestamp}_${randomId}_${baseName}${extension}` with
`extension = path.extname(file.originalname).toLowerCase()` and
`baseName = path.basename(file.originalname, extension)` sanitized and
truncated to 20 characters.  The millisecond timestamp and the short
random id are inputs here (they come from `Date.now()` and `uuidv4()`). -/
def generatedFilename (timestamp randomId originalname : List Char) : List Char :=
  let extension := (jsExtname originalname).map Char.toLower
  let baseName := (sanitizeBaseName (jsBasename originalname extension)).take 20
  timestamp ++ ('_' :: randomId) ++ ('_' :: baseName) ++ extension

/-- The `destination` callback of `createStorage` (lines 9-31): folder keyed
by field name, defaulting to `documents`. -/
def destinationFolder (fieldname : List Char) : List Char :=
  if fieldname == "aadharFile".data then "aadhar".data
  else if fieldname == "signatureFile".data then "signatures".data
  else "documents".data

/-- Written from the words of claim C5, literal reading: the storage
filename is `<timestamp>_<random-id>_<base>_<ext-part>` where `<base>` is
the basename of the original name (without its extension) sanitized and
truncated to 20 characters and the extension part is the original
extension lower-cased. -/
def claimFilenameC5 (timestamp randomId originalname : List Char) : List Char :=
  let ext := (jsExtname originalname).map Char.toLower
  let b := afterLastSlash originalname
  let base := (sanitizeBaseName (b.take (b.length - (jsExtname originalname).length))).take 20
  timestamp ++ ('_' :: randomId) ++ ('_' :: base) ++ ('_' :: ext)

/-- The same claim under the charitable reading without a separator before
the extension (the pattern given in spec section 4.2). -/
def claimFilenameC5NoSep (timestamp randomId originalname : List Char) : List Char :=
  let ext := (jsExtname originalname).map Char.toLower
  let b := afterLastSlash originalname
  let base := (sanitizeBaseName (b.take (b.length - (jsExtname originalname).length))).take 20
  timestamp ++ ('_' :: randomId) ++ ('_' :: base) ++ ext

theorem jsBasename_extname (n : List Char) :
    jsBasename n (jsExtname n)
      = (afterLastSlash n).take
          ((afterLastSlash n).length - (jsExtname n).length) := by
  simp only [jsBasename, jsExtname]
  cases hf : (afterLastSlash n).reverse.findIdx? (· == '.') with
  | none =>
    simp [List.take_length]
  | some j =>
    dsimp only
    obtain ⟨hlt, -, -⟩ := List.findIdx?_eq_some_iff_getElem.mp hf
    rw [List.length_reverse] at hlt
    by_cases hj : j + 1 = (afterLastSlash n).reverse.length
    · have hjb : (j + 1 == (afterLastSlash n).reverse.length) = true := by simp [hj]
      have hext : (if j + 1 == (afterLastSlash n).reverse.length then []
          else (afterLastSlash n).drop ((afterLastSlash n).length - 1 - j))
          = ([] : List Char) := if_pos hjb
      rw [hext]
      simp [List.take_length]
    · have hjb : ¬((j + 1 == (afterLastSlash n).reverse.length) = true) := by
        simp only [beq_iff_eq]
        exact hj
      have hext : (if j + 1 == (afterLastSlash n).reverse.length then []
          else (afterLastSlash n).drop ((afterLastSlash n).length - 1 - j))
          = (afterLastSlash n).drop ((afterLastSlash n).length - 1 - j) := if_neg hjb
      rw [hext]
      rw [List.length_reverse] at hj
      have hj1 : j + 1 < (afterLastSlash n).length := by omega
      have hdlen : ((afterLastSlash n).drop ((afterLastSlash n).length - 1 - j)).length
          = j + 1 := by
        rw [List.length_drop]
        omega
      have h1 : ((afterLastSlash n).drop ((afterLastSlash n).length - 1 - j) != [])
          = true := by
        rw [bne_iff_ne]
        intro he
        rw [he] at hdlen
        simp at hdlen
      have h2 : (afterLastSlash n != (afterLastSlash n).drop
          ((afterLastSlash n).length - 1 - j)) = true := by
        rw [bne_iff_ne]
        intro he
        have := congrArg List.length he
        rw [hdlen] at this
        omega
      have h3 : ((afterLastSlash n).drop
          ((afterLastSlash n).length - 1 - j)).isSuffixOf (afterLastSlash n) = true := by
        rw [List.isSuffixOf_iff_suffix]
        exact List.drop_suffix _ _
      have hcond : ((afterLastSlash n).drop ((afterLastSlash n).length - 1 - j) != [] &&
          afterLastSlash n != (afterLastSlash n).drop ((afterLastSlash n).length - 1 - j) &&
          ((afterLastSlash n).drop
              ((afterLastSlash n).length - 1 - j)).isSuffixOf (afterLastSlash n))
          = true := by
        rw [h1, h2, h3]
        rfl
      rw [if_pos hcond]

/-- C5 counterexample: for original name `photo.JPG` (upper-case extension)
the generated storage filename matches neither the literal claimed pattern
(with a separator before the extension part) nor the charitable reading
without one: `path.basename(name, ext)` only strips the extension when the
lower-cased extension is still a suffix of the name, so the sanitized
upper-case extension stays embedded in the base. -/
theorem c5_filename_pattern_counterexample :
    generatedFilename "1700000000000".data "a1b2c3d4".data "photo.JPG".data
        ≠ claimFilenameC5 "1700000000000".data "a1b2c3d4".data "photo.JPG".data ∧
    generatedFilename "1700000000000".data "a1b2c3d4".data "photo.JPG".data
        ≠ claimFilenameC5NoSep "1700000000000".data "a1b2c3d4".data "photo.JPG".data := by
  decide

/-- C5 amended: the destination directory is keyed solely by the field name
(identity documents, signatures, default), and whenever the original
extension is already lower-case the storage filename is exactly
`<timestamp>_<random-id>_<sanitized-truncated-base><lower-cased-extension>`
with no separator before the extension; for other extensions the sanitized
original extension remains embedded in the base (see the counterexample). -/
theorem c5_filename_amended (timestamp randomId originalname f : List Char) :
    (destinationFolder "aadharFile".data = "aadhar".data ∧
     destinationFolder "signatureFile".data = "signatures".data ∧
     (f ≠ "aadharFile".data → f ≠ "signatureFile".data →
       destinationFolder f = "documents".data)) ∧
    ((jsExtname originalname).map Char.toLower = jsExtname originalname →
      generatedFilename timestamp randomId originalname
        = claimFilenameC5NoSep timestamp randomId originalname) := by
  refine ⟨⟨rfl, rfl, ?_⟩, ?_⟩
  · intro h1 h2
    simp [destinationFolder, h1, h2]
  · intro hlow
    simp only [generatedFilename, claimFilenameC5NoSep, hlow, jsBasename_extname]

theorem c5_filename_amended_witness :
    generatedFilename "1700000000000".data "a1b2c3d4".data "photo.jpg".data
      = claimFilenameC5NoSep "1700000000000".data "a1b2c3d4".data "photo.jpg".data ∧
    destinationFolder "resumeFile".data = "documents".data :=
  ⟨(c5_filename_amended "1700000000000".data "a1b2c3d4".data "photo.jpg".data
      "resumeFile".data).2 (by decide),
   (c5_filename_amended "1700000000000".data "a1b2c3d4".data "photo.jpg".data
      "resumeFile".data).1.2.2 (by decide) (by decide)⟩

/- ===== src/config/multer.js : fileFilter (admission validator) ===== -/

/-- The `allowedMimeTypes` object of `fileFilter` (lines 59-71), looked up
by field name; `none` models the lookup of an unknown key. -/
def allowedMimeTypes (fieldname : List Char) : Option (List (List Char)) :=
  if fieldname == "aadharFile".data then
    some ["image/jpeg".data, "image/jpg".data, "image/png".data, "application/pdf".data]
  else if fieldname == "signatureFile".data then
    some ["image/jpeg".data, "image/jpg".data, "image/png".data]
  else none

/-- The `allowedExtensions` object of `fileFilter` (lines 73-76). -/
def allowedExtensions (fieldname : List Char) : Option (List (List Char)) :=
  if fieldname == "aadharFile".data then
    some [".jpg".data, ".jpeg".data, ".png".data, ".pdf".data]
  else if fieldname == "signatureFile".data then
    some [".jpg".data, ".jpeg".data, ".png".data]
  else none

/-- The character class of the filename regex
`/^[a-zA-Z0-9._\-\s()[\]{}]+$/` on line 105. -/
def filenameAllowedChar (c : Char) : Bool :=
  c.isAlphanum || c == '.' || c == '_' || c == '-' || jsIsSpaceChar c ||
  c == '(' || c == ')' || c == '[' || c == ']' || c == '\x7b' || c == '\x7d'

inductive FileFilterResult where
  | accepted
  | rejectedUnknownField
  | rejectedMimeType
  | rejectedExtension
  | rejectedFilenameTooLong
  | rejectedFilenameChars
deriving DecidableEq, Repr

/-- Function `fileFilter` from src/config/multer.js (lines 55-117): unknown field,
MIME allow-list, lower-cased-extension allow-list, filename length cap,
then the filename character regex (whose `+` also demands a non-empty
name). -/
def fileFilter (fieldname mimetype originalname : List Char) : FileFilterResult :=
  match allowedMimeTypes fieldname, allowedExtensions fieldname with
  | some fieldAllowedMimes, some fieldAllowedExts =>
    if !(fieldAllowedMimes.contains mimetype) then .rejectedMimeType
    else
      let fileExtension := (jsExtname originalname).map Char.toLower
      if !(fieldAllowedExts.contains fileExtension) then .rejectedExtension
      else if originalname.length > 255 then .rejectedFilenameTooLong
      else if originalname.isEmpty || !(originalname.all filenameAllowedChar) then
        .rejectedFilenameChars
      else .accepted
  | _, _ => .rejectedUnknownField

/-- Character set named by claim C6, literal reading: letters, digits, the
space character, and the punctuation set. -/
def claimFilenameChar (c : Char) : Bool :=
  c.isAlphanum || c == ' ' ||
  c == '.' || c == '_' || c == '-' || c == '(' || c == ')' ||
  c == '[' || c == ']' || c == '\x7b' || c == '\x7d'

/-- Admissibility predicate written from the words of claim C6. -/
def claimAdmissibleC6 (fieldname mimetype originalname : List Char) : Bool :=
  match allowedMimeTypes fieldname, allowedExtensions fieldname with
  | some mimes, some exts =>
      mimes.contains mimetype &&
      exts.contains ((jsExtname originalname).map Char.toLower) &&
      decide (originalname.length ≤ 255) &&
      originalname.all claimFilenameChar
  | _, _ => false

/-- The claim's character set amended to the whitespace class the source
regex actually uses (`\s`, so tab, newline and unicode spaces too). -/
def amendedFilenameChar (c : Char) : Bool :=
  c.isAlphanum || jsIsSpaceChar c ||
  c == '.' || c == '_' || c == '-' || c == '(' || c == ')' ||
  c == '[' || c == ']' || c == '\x7b' || c == '\x7d'

/-- Admissibility predicate of claim C6 with the amended character set. -/
def amendedAdmissibleC6 (fieldname mimetype originalname : List Char) : Bool :=
  match allowedMimeTypes fieldname, allowedExtensions fieldname with
  | some mimes, some exts =>
      mimes.contains mimetype &&
      exts.contains ((jsExtname originalname).map Char.toLower) &&
      decide (originalname.length ≤ 255) &&
      originalname.all amendedFilenameChar
  | _, _ => false

theorem amendedChar_eq_source (c : Char) :
    amendedFilenameChar c = filenameAllowedChar c := by
  rw [Bool.eq_iff_iff]
  simp only [amendedFilenameChar, filenameAllowedChar, Bool.or_eq_true]
  tauto

theorem all_amendedChar_eq_source (l : List Char) :
    l.all amendedFilenameChar = l.all filenameAllowedChar := by
  induction l with
  | nil => rfl
  | cons c cs ih => simp [List.all_cons, ih, amendedChar_eq_source]

/-- C6 counterexample: a signature upload named `a` + TAB + `.png` with
MIME `image/png` is accepted by `fileFilter` (the regex class `\s` accepts
the tab), while the claim's character set (letters, digits, space,
punctuation) rejects it. -/
theorem c6_filefilter_counterexample :
    fileFilter "signatureFile".data "image/png".data "a\t.png".data
      = FileFilterResult.accepted ∧
    claimAdmissibleC6 "signatureFile".data "image/png".data "a\t.png".data = false := by
  decide

theorem fileFilterDecisionCore (mimes exts : List (List Char)) (mimetype originalname : List Char)
    (hextsne : ([] : List Char) ∉ exts) :
    ((if !(mimes.contains mimetype) then FileFilterResult.rejectedMimeType
      else if !(exts.contains ((jsExtname originalname).map Char.toLower)) then
        FileFilterResult.rejectedExtension
      else if originalname.length > 255 then FileFilterResult.rejectedFilenameTooLong
      else if originalname.isEmpty || !(originalname.all filenameAllowedChar) then
        FileFilterResult.rejectedFilenameChars
      else FileFilterResult.accepted) = FileFilterResult.accepted) ↔
    (mimes.contains mimetype &&
     exts.contains ((jsExtname originalname).map Char.toLower) &&
     decide (originalname.length ≤ 255) &&
     originalname.all amendedFilenameChar) = true := by
  by_cases hmc : mimetype ∈ mimes
  · by_cases hec : (jsExtname originalname).map Char.toLower ∈ exts
    · have hne : originalname ≠ [] := by
        intro h
        subst h
        rw [show ((jsExtname ([] : List Char)).map Char.toLower) = [] from rfl] at hec
        exact hextsne hec
      have hempty : originalname.isEmpty = false := by
        cases originalname with
        | nil => exact absurd rfl hne
        | cons a as => rfl
      by_cases hlen : originalname.length > 255
      · have h255 : ¬(originalname.length ≤ 255) := by omega
        simp [hmc, hec, hlen, h255]
      · have h255 : originalname.length ≤ 255 := by omega
        by_cases hall : originalname.all filenameAllowedChar = true
        · simp [hmc, hec, hlen, h255, hall, hempty, all_amendedChar_eq_source]
        · simp [hmc, hec, hlen, h255, hall, hempty, all_amendedChar_eq_source]
    · simp [hmc, hec]
  · simp [hmc]

/-- C6 amended: `fileFilter` accepts a file iff its field is one of the two
known fields, its MIME type and lower-cased extension are in that field's
allow-lists, and its original name is at most 255 characters and consists
only of letters, digits, whitespace characters (the regex class `\s` - not
just the space character) and the punctuation set of the source regex. -/
theorem c6_filefilter_amended_iff (fieldname mimetype originalname : List Char) :
    fileFilter fieldname mimetype originalname = FileFilterResult.accepted ↔
    amendedAdmissibleC6 fieldname mimetype originalname = true := by
  by_cases hf1 : fieldname = "aadharFile".data
  · subst hf1
    unfold fileFilter amendedAdmissibleC6 allowedMimeTypes allowedExtensions
    simp only [beq_self_eq_true, if_true]
    exact fileFilterDecisionCore _ _ mimetype originalname (by decide)
  · by_cases hf2 : fieldname = "signatureFile".data
    · subst hf2
      unfold fileFilter amendedAdmissibleC6 allowedMimeTypes allowedExtensions
      simp only [beq_self_eq_true, if_true]
      exact fileFilterDecisionCore _ _ mimetype originalname (by decide)
    · have hm : allowedMimeTypes fieldname = none := by
        unfold allowedMimeTypes
        simp [hf1, hf2]
      have he : allowedExtensions fieldname = none := by
        unfold allowedExtensions
        simp [hf1, hf2]
      unfold fileFilter amendedAdmissibleC6
      rw [hm, he]
      simp

/- ===== src/config/multer.js : limits, uploadMiddleware, cleanupFiles ===== -/

/-- Entry `maxSizes.aadharFile` of `createMulterConfig` (line 122): 5 MiB. -/
def aadharMaxSize : Nat := 5 * 1024 * 1024

/-- Entry `maxSizes.signatureFile` of `createMulterConfig` (line 123): 2 MiB. -/
def signatureMaxSize : Nat := 2 * 1024 * 1024

/-- Limit `limits.fileSize = Math.max(...Object.values(maxSizes))` (line 130). -/
def multerFileSizeLimit : Nat := max aadharMaxSize signatureMaxSize

structure UploadedFile where
  fieldname : List Char
  originalname : List Char
  path : List Char
  size : Nat
deriving DecidableEq, Repr

/-- State of `req.files` after a successful parse: at most one file per slot
(`upload.fields` is configured with `maxCount: 1` per field). -/
structure ParsedFiles where
  aadharFile : Option UploadedFile
  signatureFile : Option UploadedFile
deriving DecidableEq, Repr

inductive MulterErrorCode where
  | limitFileSize
  | limitFileCount
  | limitUnexpectedFile
  | limitFieldKey
  | limitFieldValue
  | limitFieldCount
  | limitPartCount
deriving DecidableEq, Repr

/-- Outcome of the multipart parse performed by the external multer
library as configured by `createMulterConfig`: a categorized MulterError,
a custom `fileFilter` rejection, or the parsed files. -/
inductive ParseResult where
  | multerErr (code : MulterErrorCode)
  | filterErr
  | ok (files : ParsedFiles)
deriving DecidableEq, Repr

/-- The `error` tag attached per code by the `switch` in
`uploadMiddleware` (src/config/multer.js lines 169-219). -/
def multerErrorCodeString : MulterErrorCode → List Char
  | .limitFileSize => "FILE_TOO_LARGE".data
  | .limitFileCount => "TOO_MANY_FILES".data
  | .limitUnexpectedFile => "UNEXPECTED_FIELD".data
  | .limitFieldKey => "FIELD_NAME_TOO_LONG".data
  | .limitFieldValue => "FIELD_VALUE_TOO_LONG".data
  | .limitFieldCount => "TOO_MANY_FIELDS".data
  | .limitPartCount => "TOO_MANY_PARTS".data

/-- HTTP outcome of `uploadMiddleware`: a direct response (status plus the
error tag or message of the JSON body) or the hand-off to the next
handler. -/
inductive MiddlewareOutcome where
  | respond (status : Nat) (body : List Char)
  | next (files : ParsedFiles)
deriving DecidableEq, Repr

/-- The on-disk paths of the files written for the current request. -/
def parsedPaths (files : ParsedFiles) : List (List Char) :=
  (match files.aadharFile with
   | some f => [f.path]
   | none => []) ++
  (match files.signatureFile with
   | some f => [f.path]
   | none => [])

/-- Model of the transport-limit behaviour of the external multer parser
under the configured `limits`: a streamed file whose byte count exceeds
`limits.fileSize` aborts the parse with a LIMIT_FILE_SIZE MulterError
and the file is not kept under its field.  (multer itself is an external
collaborator; the configured limit value and the error mapping below are
repository code.) -/
def multerTransportCheck (size : Nat) : Option MulterErrorCode :=
  if size > multerFileSizeLimit then some .limitFileSize else none

/-- Function `uploadMiddleware` (src/config/multer.js lines 155-290) after the
parse: MulterErrors are mapped to categorized 400 responses, custom
fileFilter errors to a VALIDATION_ERROR 400, then the two required slots
are checked (MISSING_FILES), then the per-field byte ceilings are
re-checked (message `File validation failed`).  The second component is
the set of on-disk paths when the middleware finishes: the source sends
each 400 response directly and performs no deletion in this function. -/
def uploadMiddleware (pr : ParseResult) (disk : List (List Char)) :
    MiddlewareOutcome × List (List Char) :=
  match pr with
  | .multerErr code => (.respond 400 (multerErrorCodeString code), disk)
  | .filterErr => (.respond 400 "VALIDATION_ERROR".data, disk)
  | .ok files =>
    let missingFiles :=
      (if files.aadharFile.isNone then ["aadharFile".data] else []) ++
      (if files.signatureFile.isNone then ["signatureFile".data] else [])
    if missingFiles ≠ [] then (.respond 400 "MISSING_FILES".data, disk)
    else
      let errors :=
        (match files.aadharFile with
         | some f =>
             if f.size > aadharMaxSize then
               ["Aadhaar file size cannot exceed 5MB".data]
             else []
         | none => []) ++
        (match files.signatureFile with
         | some f =>
             if f.size > signatureMaxSize then
               ["Signature file size cannot exceed 2MB".data]
             else []
         | none => [])
      if errors ≠ [] then (.respond 400 "File validation failed".data, disk)
      else (.next files, disk)

/-- C7: the transport-layer single-file limit configured for multer equals
the maximum of the two per-field ceilings, 5 MiB; a file over that limit
aborts the parse with LIMIT_FILE_SIZE, which `uploadMiddleware` maps to a
400 FILE_TOO_LARGE response without handing files to the next handler;
and after a successful parse the exact per-field ceilings are re-checked,
so an identity document over 5 MiB or a signature over 2 MiB yields a 400
`File validation failed` response. -/
theorem c7_transport_and_per_field_size_limits :
    multerFileSizeLimit = 5 * 1024 * 1024 ∧
    (∀ size disk, size > 5 * 1024 * 1024 →
      multerTransportCheck size = some MulterErrorCode.limitFileSize ∧
      uploadMiddleware (.multerErr .limitFileSize) disk
        = (.respond 400 "FILE_TOO_LARGE".data, disk)) ∧
    (∀ f g disk, f.size > 5 * 1024 * 1024 →
      (uploadMiddleware (.ok ⟨some f, some g⟩) disk).1
        = .respond 400 "File validation failed".data) ∧
    (∀ f g disk, g.size > 2 * 1024 * 1024 →
      (uploadMiddleware (.ok ⟨some f, some g⟩) disk).1
        = .respond 400 "File validation failed".data) := by
  refine ⟨rfl, ?_, ?_, ?_⟩
  · intro size disk h
    refine ⟨?_, rfl⟩
    unfold multerTransportCheck
    rw [if_pos]
    exact h
  · intro f g disk h
    have h5 : f.size > aadharMaxSize := h
    simp [uploadMiddleware, h5, List.append_eq_nil]
  · intro f g disk h
    have h2 : g.size > signatureMaxSize := h
    simp [uploadMiddleware, h2, List.append_eq_nil]

theorem c7_transport_and_per_field_size_limits_witness :
    multerTransportCheck 6291456 = some MulterErrorCode.limitFileSize ∧
    (uploadMiddleware
        (.ok ⟨some ⟨"aadharFile".data, "a.pdf".data, "p1".data, 100⟩,
              some ⟨"signatureFile".data, "s.png".data, "p2".data, 3145728⟩⟩)
        ["p1".data, "p2".data]).1
      = .respond 400 "File validation failed".data :=
  ⟨((c7_transport_and_per_field_size_limits.2.1 6291456 [] (by decide)).1),
   c7_transport_and_per_field_size_limits.2.2.2
     ⟨"aadharFile".data, "a.pdf".data, "p1".data, 100⟩
     ⟨"signatureFile".data, "s.png".data, "p2".data, 3145728⟩
     ["p1".data, "p2".data] (by decide)⟩

/-- C2: evaluation of the code at the failing input.  A request whose
identity document was already written to disk but whose signature slot is
missing is answered 400 MISSING_FILES with the written file still on
disk: `uploadMiddleware` sends the response without any cleanup.  The
per-field size re-check path behaves the same way (second conjunct). -/
theorem c2_rejection_leaves_written_files_on_disk :
    uploadMiddleware
        (.ok ⟨some ⟨"aadharFile".data, "id.png".data,
                    "uploads/aadhar/1700_ab_id.png".data, 1000⟩, none⟩)
        ["uploads/aadhar/1700_ab_id.png".data]
      = (.respond 400 "MISSING_FILES".data,
         ["uploads/aadhar/1700_ab_id.png".data]) ∧
    uploadMiddleware
        (.ok ⟨some ⟨"aadharFile".data, "a.pdf".data, "pa".data, 100⟩,
              some ⟨"signatureFile".data, "s.png".data, "ps".data, 3145728⟩⟩)
        ["pa".data, "ps".data]
      = (.respond 400 "File validation failed".data,
         ["pa".data, "ps".data]) := by
  constructor
  · rfl
  · rfl

/- ===== src/controllers/registrationController.js : createRegistration ===== -/

/-- Function `cleanupFiles` (src/config/multer.js lines 293-325): try to unlink
every path recorded in `files`; a path disappears from disk when it is
present and the unlink succeeds; each failure is caught inside the
function (it never throws), so the only effect is on the disk.
`unlinkFails` is the fault oracle of the file system. -/
def cleanupFiles (files : ParsedFiles) (disk : List (List Char))
    (unlinkFails : List Char → Bool) : List (List Char) :=
  disk.filter (fun p => !((parsedPaths files).contains p && !(unlinkFails p)))

inductive SaveOutcome where
  | ok
  | validationErr
  | duplicateKey (field : List Char)
  | otherErr
deriving DecidableEq, Repr

/-- Input state of one `createRegistration` call: the express-validator
result, the parsed files, the outcome of the three duplicate lookups, the
`agreeTerms` body field, and the outcome of the attempted save. -/
structure RegInput where
  validationErrors : List (List Char)
  files : ParsedFiles
  existingEmail : Bool
  existingPhone : Bool
  existingAadhar : Bool
  agreeTerms : List Char
  saveOutcome : SaveOutcome
deriving DecidableEq, Repr

inductive RegResponse where
  | badRequest (message : List Char) (field : Option (List Char))
  | configError (field : List Char)
  | serverError
  | created
deriving DecidableEq, Repr

/-- The `fieldNames` map of the duplicate-key handler (lines 216-220). -/
def dupFieldNames : List (List Char) :=
  ["email".data, "phone".data, "aadharNumber".data]

/-- Function `createRegistration` (src/controllers/registrationController.js lines
10-251): express-validator failures, a missing file slot, each duplicate
lookup, the terms re-check, and every error thrown by the save all answer
an error response after running `cleanupFiles` on `req.files`; only the
successful save leaves the files in place.  Result: response and final
disk. -/
def createRegistration (inp : RegInput) (disk : List (List Char))
    (unlinkFails : List Char → Bool) : RegResponse × List (List Char) :=
  if inp.validationErrors ≠ [] then
    (.badRequest "Validation failed".data none,
     cleanupFiles inp.files disk unlinkFails)
  else if inp.files.aadharFile.isNone || inp.files.signatureFile.isNone then
    (.badRequest "Both Aadhaar document and signature files are required".data none,
     cleanupFiles inp.files disk unlinkFails)
  else if inp.existingEmail then
    (.badRequest "This email address is already registered".data (some "email".data),
     cleanupFiles inp.files disk unlinkFails)
  else if inp.existingPhone then
    (.badRequest "This phone number is already registered".data (some "phone".data),
     cleanupFiles inp.files disk unlinkFails)
  else if inp.existingAadhar then
    (.badRequest "This Aadhaar number is already registered".data
       (some "aadharNumber".data),
     cleanupFiles inp.files disk unlinkFails)
  else if inp.agreeTerms != "true".data then
    (.badRequest "Registration validation failed".data none,
     cleanupFiles inp.files disk unlinkFails)
  else
    match inp.saveOutcome with
    | .ok => (.created, disk)
    | .validationErr =>
        (.badRequest "Registration data validation failed".data none,
         cleanupFiles inp.files disk unlinkFails)
    | .duplicateKey field =>
        if dupFieldNames.contains field then
          (.badRequest "already registered".data (some field),
           cleanupFiles inp.files disk unlinkFails)
        else
          (.configError field, cleanupFiles inp.files disk unlinkFails)
    | .otherErr => (.serverError, cleanupFiles inp.files disk unlinkFails)

theorem createRegistration_fst_fault_free (inp : RegInput)
    (disk : List (List Char)) (fault fault2 : List Char → Bool) :
    (createRegistration inp disk fault).1 = (createRegistration inp disk fault2).1 := by
  unfold createRegistration
  repeat' first
  | rfl
  | split

theorem createRegistration_snd_cases (inp : RegInput)
    (disk : List (List Char)) (fault : List Char → Bool) :
    (createRegistration inp disk fault).2 = cleanupFiles inp.files disk fault ∨
    ((createRegistration inp disk fault).1 = .created ∧
     (createRegistration inp disk fault).2 = disk) := by
  unfold createRegistration
  repeat' first
  | (left; rfl)
  | (right; exact ⟨rfl, rfl⟩)
  | split

theorem cleanupFiles_removes_all (files : ParsedFiles) (disk : List (List Char))
    (fault : List Char → Bool) (hf : ∀ p, fault p = false) :
    ∀ p ∈ parsedPaths files, p ∉ cleanupFiles files disk fault := by
  intro p hp hmem
  unfold cleanupFiles at hmem
  rw [List.mem_filter] at hmem
  obtain ⟨-, hcond⟩ := hmem
  simp [hf p, hp] at hcond

/-- C3: for every registration request rejected downstream of file storage
(field-validation failure, missing slot, duplicate email, phone or
identity number, terms re-check, or any error thrown by the save), the
response is independent of the file-system fault oracle - a cleanup
failure never replaces or alters the reported error - and when the fault
oracle reports no failure every file written during the request is absent
from the final disk; the duplicate-email rejection carries its original
field tag. -/
theorem c3_downstream_rejection_cleanup_and_error_preserved
    (inp : RegInput) (disk : List (List Char)) (fault fault2 : List Char → Bool) :
    (createRegistration inp disk fault).1 = (createRegistration inp disk fault2).1 ∧
    ((createRegistration inp disk fault).1 ≠ .created →
      (∀ p, fault p = false) →
      ∀ p ∈ parsedPaths inp.files, p ∉ (createRegistration inp disk fault).2) ∧
    (inp.validationErrors = [] → inp.files.aadharFile.isSome →
      inp.files.signatureFile.isSome → inp.existingEmail = true →
      (createRegistration inp disk fault).1
        = .badRequest "This email address is already registered".data
            (some "email".data)) := by
  refine ⟨createRegistration_fst_fault_free inp disk fault fault2, ?_, ?_⟩
  · intro hrej hf p hp
    rcases createRegistration_snd_cases inp disk fault with h | ⟨hc, -⟩
    · rw [h]
      exact cleanupFiles_removes_all inp.files disk fault hf p hp
    · exact absurd hc hrej
  · intro hv ha hs he
    obtain ⟨fa, hfa⟩ := Option.isSome_iff_exists.mp ha
    obtain ⟨fs, hfs⟩ := Option.isSome_iff_exists.mp hs
    unfold createRegistration
    rw [if_neg (by simp [hv]), hfa, hfs]
    rw [if_neg (by simp), if_pos he]

def c3InputW : RegInput :=
  ⟨[], ⟨some ⟨"aadharFile".data, "a.pdf".data, "pa".data, 100⟩,
        some ⟨"signatureFile".data, "s.png".data, "ps".data, 50⟩⟩,
   true, false, false, "true".data, .ok⟩

theorem c3_downstream_rejection_cleanup_witness :
    (createRegistration c3InputW ["pa".data, "ps".data] (fun _ => false)).1
      = RegResponse.badRequest "This email address is already registered".data
          (some "email".data) ∧
    "pa".data ∉ (createRegistration c3InputW ["pa".data, "ps".data]
        (fun _ => false)).2 :=
  ⟨(c3_downstream_rejection_cleanup_and_error_preserved c3InputW
      ["pa".data, "ps".data] (fun _ => false) (fun _ => false)).2.2
      rfl rfl rfl rfl,
   (c3_downstream_rejection_cleanup_and_error_preserved c3InputW
      ["pa".data, "ps".data] (fun _ => false) (fun _ => false)).2.1
      (by decide) (fun _ => rfl) "pa".data (by decide)⟩

/- ===== src/models/Registration.js : schema slice, save validation ===== -/

/-- One File Metadata sub-record (src/models/Registration.js lines
134-151).  All five data paths are declared `required` by the schema;
they are `Option` here so that validation over partial documents can be
stated.  `uploadedAt` has a schema default and is never absent. -/
structure FileMeta where
  originalName : Option (List Char)
  filename : Option (List Char)
  path : Option (List Char)
  size : Option Nat
  mimeType : Option (List Char)
  uploadedAt : Nat
deriving DecidableEq, Repr

structure RegFiles where
  aadharFile : Option FileMeta
  signatureFile : Option FileMeta
deriving DecidableEq, Repr

/-- The slice of the Submission Record the claims under verification
touch: identity number, review state, and the two file sub-records.
(The remaining scalar identity paths of the schema are referenced by no
claim and are left out of the slice.) -/
structure Registration where
  aadharNumber : List Char
  status : List Char
  reviewedAt : Option Nat
  reviewedBy : Option (List Char)
  notes : Option (List Char)
  files : RegFiles
deriving DecidableEq, Repr

/-- The `status` enum of the schema (line 172). -/
def statusEnum : List (List Char) :=
  ["pending".data, "approved".data, "rejected".data, "under_review".data]

/-- All five required paths of a File Metadata sub-record are present. -/
def fileMetaComplete (m : FileMeta) : Bool :=
  m.originalName.isSome && m.filename.isSome && m.path.isSome &&
  m.size.isSome && m.mimeType.isSome

/-- Mongoose document validation for the embedded slice, as the schema
declares it: `status` in its enum, `notes` capped at 500 characters, the
five required paths of both file sub-records present (a nested object
with required children cannot be absent), and the `aadharNumber`
validator (the same code as `isValidAadhaar`). -/
def validateRegistration (r : Registration) : Bool :=
  statusEnum.contains r.status &&
  (match r.notes with
   | some n => decide (n.length ≤ 500)
   | none => true) &&
  (match r.files.aadharFile with
   | some m => fileMetaComplete m
   | none => false) &&
  (match r.files.signatureFile with
   | some m => fileMetaComplete m
   | none => false) &&
  isValidAadhaar r.aadharNumber

inductive SaveResult where
  | saved (r : Registration)
  | validationFailed
deriving DecidableEq, Repr

/-- Model of `document.save()`: validation runs first (an enum or required-path
violation raises a ValidationError and nothing is written), then the
pre-save hook strips the Aadhaar number just before the write. -/
def saveRegistration (r : Registration) : SaveResult :=
  if validateRegistration r then
    .saved { r with aadharNumber := preSaveAadhar r.aadharNumber }
  else .validationFailed

/-- Assignment `if (notes) this.notes = notes`: only a truthy (present, non-empty)
notes value overwrites the field. -/
def applyNotes (current notes : Option (List Char)) : Option (List Char) :=
  match notes with
  | some n => if n ≠ [] then some n else current
  | none => current

/-- Instance method `approve` (src/models/Registration.js lines 319-325). -/
def Registration.approve (r : Registration) (reviewedBy notes : Option (List Char))
    (now : Nat) : SaveResult :=
  saveRegistration { r with
    status := "approved".data
    reviewedAt := some now
    reviewedBy := reviewedBy
    notes := applyNotes r.notes notes }

/-- Instance method `reject` (lines 327-333). -/
def Registration.reject (r : Registration) (reviewedBy notes : Option (List Char))
    (now : Nat) : SaveResult :=
  saveRegistration { r with
    status := "rejected".data
    reviewedAt := some now
    reviewedBy := reviewedBy
    notes := applyNotes r.notes notes }

/-- Instance method `setUnderReview` (lines 335-341). -/
def Registration.setUnderReview (r : Registration)
    (reviewedBy notes : Option (List Char)) (now : Nat) : SaveResult :=
  saveRegistration { r with
    status := "under_review".data
    reviewedAt := some now
    reviewedBy := reviewedBy
    notes := applyNotes r.notes notes }

/- ===== registrationController.js : updateRegistrationStatus ===== -/

inductive StatusUpdateResult where
  | badRequest (message : List Char)
  | notFound
  | okUpdated (r : Registration)
  | serverError
deriving DecidableEq, Repr

/-- The controller's own status allow-list (line 390) - not the schema
enum and not the allow-list of the route's validation middleware. -/
def controllerValidStatuses : List (List Char) :=
  ["Pending".data, "Active".data, "Completed".data]

/-- Function `updateRegistrationStatus` (src/controllers/registrationController.js
lines 383-459).  The route also declares `statusUpdateValidation`
(middleware/validation.js lines 204-222), but the controller never reads
`validationResult`, so those rules do not gate this handler.  The switch
on `status` is reachable only with one of the controller's three
statuses, so its `approved`/`rejected`/`under_review` cases are dead and
the default branch mutates and saves; a save rejected by schema
validation is caught and answered 500 with the stored record unchanged. -/
def updateRegistrationStatus (stored : Option Registration)
    (status : List Char) (notes reviewedBy : Option (List Char)) (now : Nat) :
    StatusUpdateResult × Option Registration :=
  if !(controllerValidStatuses.contains status) then
    (.badRequest "Invalid status. Must be one of: Pending, Active, Completed".data,
     stored)
  else
    match stored with
    | none => (.notFound, none)
    | some registration =>
      let attempt :=
        if status == "approved".data then
          registration.approve reviewedBy notes now
        else if status == "rejected".data then
          registration.reject reviewedBy notes now
        else if status == "under_review".data then
          registration.setUnderReview reviewedBy notes now
        else
          saveRegistration { registration with
            status := status
            reviewedAt := some now
            reviewedBy := reviewedBy
            notes := applyNotes registration.notes notes }
      match attempt with
      | .saved s => (.okUpdated s, some s)
      | .validationFailed => (.serverError, some registration)

/-- A concrete valid stored record used for concrete evaluations. -/
def regW : Registration :=
  { aadharNumber := "234567890123".data
    status := "pending".data
    reviewedAt := none
    reviewedBy := none
    notes := none
    files :=
      ⟨some ⟨some "id.png".data, some "1_a_id.png".data,
             some "uploads/aadhar/1_a_id.png".data, some 1000,
             some "image/png".data, 0⟩,
       some ⟨some "s.png".data, some "1_b_s.png".data,
             some "uploads/signatures/1_b_s.png".data, some 500,
             some "image/png".data, 0⟩⟩ }

/-- C1: evaluation of the code at the failing inputs.  For every target
status in the enumeration claimed by the spec (`pending`, `approved`,
`rejected`, `under_review`) the controller answers 400 `Invalid status`
and mutates nothing, because its own allow-list is
`Pending`/`Active`/`Completed`; and a target from that controller
allow-list passes the guard only to fail the schema enum at save time,
yielding 500 with the stored record unchanged. -/
theorem c1_status_update_rejects_spec_enumeration :
    updateRegistrationStatus (some regW) "approved".data none
        (some "Admin".data) 1000
      = (.badRequest
           "Invalid status. Must be one of: Pending, Active, Completed".data,
         some regW) ∧
    updateRegistrationStatus (some regW) "pending".data none
        (some "Admin".data) 1000
      = (.badRequest
           "Invalid status. Must be one of: Pending, Active, Completed".data,
         some regW) ∧
    updateRegistrationStatus (some regW) "rejected".data none
        (some "Admin".data) 1000
      = (.badRequest
           "Invalid status. Must be one of: Pending, Active, Completed".data,
         some regW) ∧
    updateRegistrationStatus (some regW) "under_review".data none
        (some "Admin".data) 1000
      = (.badRequest
           "Invalid status. Must be one of: Pending, Active, Completed".data,
         some regW) ∧
    updateRegistrationStatus (some regW) "Active".data none
        (some "Admin".data) 1000
      = (.serverError, some regW) := by
  refine ⟨rfl, rfl, rfl, rfl, ?_⟩
  decide

/- ===== fileController : downloadFile ===== -/

inductive DownloadResult where
  | badRequest (message : List Char)
  | notFoundRegistration (message : List Char)
  | notFoundMeta (message : List Char)
  | notFoundOnServer (message : List Char)
  | stream (contentType dispositionName : List Char) (content : List Nat)
deriving DecidableEq, Repr

/-- Function `downloadFile` (fileController, second module concatenated in
src/controllers/registrationController.js, lines 607-701): validate the
file type, look up the registration, resolve the slot metadata (404 when
the metadata or its `path` is absent), re-check the bytes on disk (the
distinct 404 `File not found on server` when the path resolves to no
content), then stream with a `Content-Disposition: attachment` header
whose filename is `fileInfo.originalName` (a JS template literal renders
an absent value as the string `undefined`).  `fsRead` is the disk state:
the content found at a path. -/
def downloadFile (fileType : List Char) (stored : Option Registration)
    (fsRead : List Char → Option (List Nat)) : DownloadResult :=
  if !(["aadhar".data, "signature".data].contains fileType) then
    .badRequest "Invalid file type. Must be aadhar or signature".data
  else
    match stored with
    | none => .notFoundRegistration "Registration not found".data
    | some registration =>
      let fileInfo := if fileType == "aadhar".data then
          registration.files.aadharFile
        else registration.files.signatureFile
      match fileInfo with
      | none => .notFoundMeta (fileType ++ " file not found".data)
      | some m =>
        match m.path with
        | none => .notFoundMeta (fileType ++ " file not found".data)
        | some p =>
          match fsRead p with
          | none => .notFoundOnServer "File not found on server".data
          | some content =>
            .stream (m.mimeType.getD "application/octet-stream".data)
              (m.originalName.getD "undefined".data) content

/-- C8: on a valid file type and an existing record whose slot metadata
has a path, absent bytes yield the distinct 404 `File not found on
server` (a different constructor and message than the missing-metadata
404), present bytes are streamed with the attachment disposition carrying
the stored original client filename, and the result only depends on the
record and the disk content, so downloading the same unchanged file twice
gives byte-identical content and the same disposition filename. -/
theorem c8_download_file (fileType : List Char) (r : Registration)
    (fsRead fsRead2 : List Char → Option (List Nat)) (m : FileMeta) (p : List Char)
    (hft : fileType = "aadhar".data ∨ fileType = "signature".data)
    (hm : (if fileType == "aadhar".data then r.files.aadharFile
           else r.files.signatureFile) = some m)
    (hp : m.path = some p) :
    (fsRead p = none →
      downloadFile fileType (some r) fsRead
        = .notFoundOnServer "File not found on server".data ∧
      ∀ msg, DownloadResult.notFoundOnServer "File not found on server".data
        ≠ .notFoundMeta msg) ∧
    (∀ content, fsRead p = some content →
      downloadFile fileType (some r) fsRead
        = .stream (m.mimeType.getD "application/octet-stream".data)
            (m.originalName.getD "undefined".data) content) ∧
    ((∀ q, fsRead q = fsRead2 q) →
      downloadFile fileType (some r) fsRead
        = downloadFile fileType (some r) fsRead2) := by
  have hc : (["aadhar".data, "signature".data].contains fileType) = true := by
    rcases hft with h | h <;> simp [h]
  refine ⟨?_, ?_, ?_⟩
  · intro hnone
    refine ⟨?_, ?_⟩
    · simp only [downloadFile, hc, Bool.not_true, Bool.false_eq_true, if_false,
        hm, hp, hnone]
    · intro msg h
      exact DownloadResult.noConfusion h
  · intro content hsome
    simp only [downloadFile, hc, Bool.not_true, Bool.false_eq_true, if_false,
      hm, hp, hsome]
  · intro hq
    simp only [downloadFile, hc, Bool.not_true, Bool.false_eq_true, if_false,
      hm, hp, hq p]

theorem c8_download_file_witness :
    downloadFile "aadhar".data (some regW) (fun _ => none)
      = DownloadResult.notFoundOnServer "File not found on server".data ∧
    downloadFile "aadhar".data (some regW)
        (fun p => if p == "uploads/aadhar/1_a_id.png".data then
            some [10, 20, 30] else none)
      = .stream "image/png".data "id.png".data [10, 20, 30] :=
  ⟨((c8_download_file "aadhar".data regW (fun _ => none) (fun _ => none)
      ⟨some "id.png".data, some "1_a_id.png".data,
       some "uploads/aadhar/1_a_id.png".data, some 1000,
       some "image/png".data, 0⟩
      "uploads/aadhar/1_a_id.png".data (Or.inl rfl) (by decide) rfl).1 rfl).1,
   (c8_download_file "aadhar".data regW
      (fun p => if p == "uploads/aadhar/1_a_id.png".data then
          some [10, 20, 30] else none)
      (fun _ => none)
      ⟨some "id.png".data, some "1_a_id.png".data,
       some "uploads/aadhar/1_a_id.png".data, some 1000,
       some "image/png".data, 0⟩
      "uploads/aadhar/1_a_id.png".data (Or.inl rfl) (by decide) rfl).2.1
      [10, 20, 30] (by decide)⟩

/- ===== fileController : deleteFile ===== -/

inductive DeleteFileResult where
  | badRequest (message : List Char)
  | notFoundRegistration
  | notFoundMeta (message : List Char)
  | deleted (message : List Char)
  | serverError (message : List Char)
deriving DecidableEq, Repr

/-- Function `deleteFile` (fileController, lines 1005-1083): validate the type,
find the registration, resolve the slot (404 when no metadata in the
database), best-effort unlink of the on-disk file (failures logged and
swallowed), then set the slot to `undefined` and save.  A save rejected
by schema validation is caught and answered 500 `Failed to delete file`,
and the stored record keeps its previous value because nothing was
written. -/
def deleteFile (fileType : List Char) (stored : Option Registration)
    (disk : List (List Char)) (unlinkFails : List Char → Bool) :
    DeleteFileResult × Option Registration × List (List Char) :=
  if !(["aadhar".data, "signature".data].contains fileType) then
    (.badRequest "Invalid file type".data, stored, disk)
  else
    match stored with
    | none => (.notFoundRegistration, none, disk)
    | some registration =>
      let fileInfo := if fileType == "aadhar".data then
          registration.files.aadharFile
        else registration.files.signatureFile
      match fileInfo with
      | none =>
          (.notFoundMeta (fileType ++ " file not found in database".data),
           some registration, disk)
      | some m =>
        let disk2 := match m.path with
          | some p => disk.filter (fun q => !(q == p && !(unlinkFails p)))
          | none => disk
        let cleared := if fileType == "aadhar".data then
            { registration with files :=
                { registration.files with aadharFile := none } }
          else
            { registration with files :=
                { registration.files with signatureFile := none } }
        match saveRegistration cleared with
        | .saved s =>
            (.deleted (fileType ++ " file deleted successfully".data),
             some s, disk2)
        | .validationFailed =>
            (.serverError "Failed to delete file".data, some registration, disk2)

theorem validateRegistration_slots (r : Registration)
    (hv : validateRegistration r = true) :
    (∃ ma, r.files.aadharFile = some ma ∧ fileMetaComplete ma = true) ∧
    (∃ ms, r.files.signatureFile = some ms ∧ fileMetaComplete ms = true) := by
  unfold validateRegistration at hv
  rw [Bool.and_eq_true, Bool.and_eq_true, Bool.and_eq_true, Bool.and_eq_true] at hv
  obtain ⟨⟨⟨⟨-, -⟩, ha⟩, hs⟩, -⟩ := hv
  constructor
  · cases hma : r.files.aadharFile with
    | none => rw [hma] at ha; exact absurd ha (by simp)
    | some ma => rw [hma] at ha; exact ⟨ma, rfl, ha⟩
  · cases hms : r.files.signatureFile with
    | none => rw [hms] at hs; exact absurd hs (by simp)
    | some ms => rw [hms] at hs; exact ⟨ms, rfl, hs⟩

theorem validateRegistration_cleared_aadhar (r : Registration) :
    validateRegistration
      { aadharNumber := r.aadharNumber
        status := r.status
        reviewedAt := r.reviewedAt
        reviewedBy := r.reviewedBy
        notes := r.notes
        files := { aadharFile := none, signatureFile := r.files.signatureFile } }
      = false := by
  unfold validateRegistration
  simp

theorem validateRegistration_cleared_signature (r : Registration) :
    validateRegistration
      { aadharNumber := r.aadharNumber
        status := r.status
        reviewedAt := r.reviewedAt
        reviewedBy := r.reviewedBy
        notes := r.notes
        files := { aadharFile := r.files.aadharFile, signatureFile := none } }
      = false := by
  unfold validateRegistration
  simp

/-- C9 counterexample: on a concrete valid record, the per-slot deletion
endpoint does not clear the slot's File Metadata sub-record: the save of
the cleared document violates the required paths of the schema, the
handler answers 500 `Failed to delete file`, and the stored record still
carries the full metadata (while the on-disk file was already
unlinked). -/
theorem c9_delete_file_counterexample :
    deleteFile "aadhar".data (some regW)
        ["uploads/aadhar/1_a_id.png".data] (fun _ => false)
      = (.serverError "Failed to delete file".data, some regW, []) ∧
    regW.files.aadharFile.isSome = true := by
  constructor
  · decide
  · rfl

/-- C9 amended: every record that passes schema validation has both File
Metadata sub-records with all five required fields - the invariant holds
and is preserved by every save - but the per-slot deletion operation
cannot clear a slot: on any valid stored record it unlinks the on-disk
file best-effort, then its save fails validation, it answers 500, and
the record keeps both sub-records intact. -/
theorem c9_record_invariant_and_delete_file (r : Registration)
    (fileType : List Char) (disk : List (List Char))
    (fault : List Char → Bool)
    (hv : validateRegistration r = true)
    (hft : fileType = "aadhar".data ∨ fileType = "signature".data) :
    (∃ ma, r.files.aadharFile = some ma ∧ fileMetaComplete ma = true) ∧
    (∃ ms, r.files.signatureFile = some ms ∧ fileMetaComplete ms = true) ∧
    (deleteFile fileType (some r) disk fault).1
      = .serverError "Failed to delete file".data ∧
    (deleteFile fileType (some r) disk fault).2.1 = some r := by
  obtain ⟨⟨ma, hma, hca⟩, ⟨ms, hms, hcs⟩⟩ := validateRegistration_slots r hv
  refine ⟨⟨ma, hma, hca⟩, ⟨ms, hms, hcs⟩, ?_⟩
  rcases hft with h | h
  · subst h
    have hc : (!(["aadhar".data, "signature".data].contains "aadhar".data))
        = false := by decide
    have heq : ("aadhar".data == "aadhar".data) = true := by decide
    have hsave : saveRegistration
        { aadharNumber := r.aadharNumber
          status := r.status
          reviewedAt := r.reviewedAt
          reviewedBy := r.reviewedBy
          notes := r.notes
          files := { aadharFile := none,
                     signatureFile := r.files.signatureFile } }
        = SaveResult.validationFailed := by
      unfold saveRegistration
      rw [validateRegistration_cleared_aadhar]
      rfl
    constructor <;>
      simp only [deleteFile, hc, Bool.false_eq_true, if_false, heq,
        eq_self_iff_true, if_true, hma, hsave]
  · subst h
    have hc : (!(["aadhar".data, "signature".data].contains "signature".data))
        = false := by decide
    have heq : ("signature".data == "aadhar".data) = false := by decide
    have hsave : saveRegistration
        { aadharNumber := r.aadharNumber
          status := r.status
          reviewedAt := r.reviewedAt
          reviewedBy := r.reviewedBy
          notes := r.notes
          files := { aadharFile := r.files.aadharFile,
                     signatureFile := none } }
        = SaveResult.validationFailed := by
      unfold saveRegistration
      rw [validateRegistration_cleared_signature]
      rfl
    constructor <;>
      simp only [deleteFile, hc, Bool.false_eq_true, if_false, heq,
        eq_self_iff_true, if_true, hms, hsave]

theorem c9_record_invariant_and_delete_file_witness :
    (deleteFile "signature".data (some regW) [] (fun _ => false)).1
      = DeleteFileResult.serverError "Failed to delete file".data ∧
    (deleteFile "signature".data (some regW) [] (fun _ => false)).2.1
      = some regW :=
  ⟨(c9_record_invariant_and_delete_file regW "signature".data []
      (fun _ => false) (by decide) (Or.inr rfl)).2.2.1,
   (c9_record_invariant_and_delete_file regW "signature".data []
      (fun _ => false) (by decide) (Or.inr rfl)).2.2.2⟩

/- ===== src/middleware/validation.js : rateLimitValidation ===== -/

structure RateEntry where
  count : Nat
  firstRequest : Nat
deriving DecidableEq, Repr

/-- The closure's `requests` Map, as the finite function it implements. -/
abbrev RateMap := List Char → Option RateEntry

/-- Rounding `Math.ceil(x / 1000)` on a non-negative millisecond count. -/
def jsCeilDiv1000 (x : Nat) : Nat := (x + 999) / 1000

/-- The lazy sweep at the top of the handler (lines 314-318): delete every
entry whose window has elapsed. -/
def sweepRateMap (m : RateMap) (now windowMs : Nat) : RateMap :=
  fun ip =>
    match m ip with
    | some e => if now - e.firstRequest > windowMs then none else some e
    | none => none

inductive RateDecision where
  | allowed
  | limited (retryAfter : Nat)
deriving DecidableEq, Repr

def setRateEntry (m : RateMap) (key : List Char) (e : RateEntry) : RateMap :=
  fun ip => if ip = key then some e else m ip

/-- One request through the closure returned by `rateLimitValidation`
(src/middleware/validation.js lines 306-344): sweep stale entries, then
first-request / expired-window reset, the `count >= max` rejection with
`retryAfter = ceil((windowMs - (now - firstRequest)) / 1000)`, or the
increment. -/
def rateLimitStep (windowMs maxReq : Nat) (m : RateMap) (key : List Char)
    (now : Nat) : RateDecision × RateMap :=
  let m1 := sweepRateMap m now windowMs
  match m1 key with
  | none => (.allowed, setRateEntry m1 key ⟨1, now⟩)
  | some userRequests =>
    if now - userRequests.firstRequest > windowMs then
      (.allowed, setRateEntry m1 key ⟨1, now⟩)
    else if userRequests.count ≥ maxReq then
      (.limited (jsCeilDiv1000 (windowMs - (now - userRequests.firstRequest))), m1)
    else
      (.allowed, setRateEntry m1 key
         ⟨userRequests.count + 1, userRequests.firstRequest⟩)

/-- The registration route (src/unnamed/part_003 lines 36-43) mounts
`rateLimitValidation(15 * 60 * 1000, 3)` in front of POST /register. -/
def registerWindowMs : Nat := 15 * 60 * 1000

/-- The `max` argument the route passes: 3 attempts per window. -/
def registerMaxAttempts : Nat := 3

def emptyRateMap : RateMap := fun _ => none

/-- The decisions the limiter hands to the requests of address `k`, in
order, when the whole mixed trace is processed from state `m`. -/
def runDecisionsFor (windowMs maxReq : Nat) (k : List Char) (m : RateMap) :
    List (List Char × Nat) → List RateDecision
  | [] => []
  | (key, now) :: rest =>
    let r := rateLimitStep windowMs maxReq m key now
    if key = k then r.1 :: runDecisionsFor windowMs maxReq k r.2 rest
    else runDecisionsFor windowMs maxReq k r.2 rest

/-- The request times of one address within a trace. -/
def keyTimes (k : List Char) : List (List Char × Nat) → List Nat
  | [] => []
  | (key, now) :: rest =>
    if key = k then now :: keyTimes k rest else keyTimes k rest

/-- The limiter restricted to a single address: the state is just that
address's entry. -/
def singleKeyStep (windowMs maxReq : Nat) (st : Option RateEntry) (now : Nat) :
    RateDecision × Option RateEntry :=
  match st with
  | none => (.allowed, some ⟨1, now⟩)
  | some e =>
    if now - e.firstRequest > windowMs then (.allowed, some ⟨1, now⟩)
    else if e.count ≥ maxReq then
      (.limited (jsCeilDiv1000 (windowMs - (now - e.firstRequest))), some e)
    else (.allowed, some ⟨e.count + 1, e.firstRequest⟩)

def singleKeyRun (windowMs maxReq : Nat) (st : Option RateEntry) :
    List Nat → List RateDecision
  | [] => []
  | t :: ts =>
    let r := singleKeyStep windowMs maxReq st t
    r.1 :: singleKeyRun windowMs maxReq r.2 ts

/-- Written from the words of claim C10, current window position
(`start`, `cnt` requests already accepted in it): a request after the
window elapses starts a fresh count; within the window, requests beyond
the limit are answered with `retryAfter` equal to the remaining seconds
of the window; otherwise the request is accepted. -/
def claimWindowGo (windowMs maxReq : Nat) (start cnt : Nat) :
    List Nat → List RateDecision
  | [] => []
  | t :: ts =>
    if t - start > windowMs then
      .allowed :: claimWindowGo windowMs maxReq t 1 ts
    else if cnt ≥ maxReq then
      .limited (jsCeilDiv1000 (windowMs - (t - start))) ::
        claimWindowGo windowMs maxReq start cnt ts
    else .allowed :: claimWindowGo windowMs maxReq start (cnt + 1) ts

/-- Written from the words of claim C10: the first request of an address
opens a window counted from it and is accepted. -/
def claimDecisions (windowMs maxReq : Nat) : List Nat → List RateDecision
  | [] => []
  | t :: ts => .allowed :: claimWindowGo windowMs maxReq t 1 ts

def countAllowed (ds : List RateDecision) : Nat :=
  (ds.filter (fun d => d == RateDecision.allowed)).length

theorem singleKeyRun_some_eq_claimGo (W maxReq : Nat) (ts : List Nat) :
    ∀ start cnt,
      singleKeyRun W maxReq (some ⟨cnt, start⟩) ts
        = claimWindowGo W maxReq start cnt ts := by
  induction ts with
  | nil => intro start cnt; rfl
  | cons t ts ih =>
    intro start cnt
    by_cases h1 : t - start > W
    · simp [singleKeyRun, singleKeyStep, claimWindowGo, h1, ih]
    · by_cases h2 : cnt ≥ maxReq
      · simp [singleKeyRun, singleKeyStep, claimWindowGo, h1, h2, ih]
      · simp [singleKeyRun, singleKeyStep, claimWindowGo, h1, h2, ih]

theorem singleKeyRun_eq_claimDecisions (W maxReq : Nat) (ts : List Nat) :
    singleKeyRun W maxReq none ts = claimDecisions W maxReq ts := by
  cases ts with
  | nil => rfl
  | cons t ts =>
    simp [singleKeyRun, singleKeyStep, claimDecisions,
      singleKeyRun_some_eq_claimGo]

/-- Relation between the full map's entry for an address and the
single-address state: equal, or the full map already swept an entry that
is stale for every time from `t0` on. -/
def rateAgrees (t0 W : Nat) (a b : Option RateEntry) : Prop :=
  a = b ∨ (a = none ∧ ∃ e, b = some e ∧ t0 - e.firstRequest > W)

theorem rateLimitStep_key (W maxReq : Nat) (m : RateMap) (k : List Char)
    (t t0 : Nat) (st : Option RateEntry) (ht0 : t0 ≤ t)
    (hR : rateAgrees t0 W (m k) st) :
    (rateLimitStep W maxReq m k t).1 = (singleKeyStep W maxReq st t).1 ∧
    (rateLimitStep W maxReq m k t).2 k = (singleKeyStep W maxReq st t).2 := by
  rcases hR with heq | ⟨hm, e, hst, hstale⟩
  · subst heq
    unfold rateLimitStep singleKeyStep sweepRateMap setRateEntry
    cases hmk : m k with
    | none => simp [hmk]
    | some e =>
      by_cases hstl : t - e.firstRequest > W
      · simp [hmk, hstl]
      · by_cases hcnt : e.count ≥ maxReq
        · simp [hmk, hstl, hcnt]
        · simp [hmk, hstl, hcnt]
  · subst hst
    have hstl : t - e.firstRequest > W := by omega
    unfold rateLimitStep singleKeyStep sweepRateMap setRateEntry
    simp [hm, hstl]

theorem rateLimitStep_other (W maxReq : Nat) (m : RateMap) (j k : List Char)
    (hne : j ≠ k) (t t0 : Nat) (st : Option RateEntry) (ht0 : t0 ≤ t)
    (hR : rateAgrees t0 W (m k) st) :
    rateAgrees t W ((rateLimitStep W maxReq m j t).2 k) st := by
  have hstep : (rateLimitStep W maxReq m j t).2 k = sweepRateMap m t W k := by
    unfold rateLimitStep setRateEntry
    cases hj : sweepRateMap m t W j with
    | none => simp [hj, Ne.symm hne]
    | some e =>
      by_cases hstl : t - e.firstRequest > W
      · simp [hj, hstl, Ne.symm hne]
      · by_cases hcnt : e.count ≥ maxReq
        · simp [hj, hstl, hcnt]
        · simp [hj, hstl, hcnt, Ne.symm hne]
  rw [hstep]
  unfold sweepRateMap
  rcases hR with heq | ⟨hm, e, hst, hstale⟩
  · subst heq
    cases hmk : m k with
    | none => exact Or.inl rfl
    | some e =>
      by_cases hstl : t - e.firstRequest > W
      · exact Or.inr ⟨by simp [hmk, hstl], e, rfl, hstl⟩
      · exact Or.inl (by simp [hmk, hstl])
  · subst hst
    rw [hm]
    exact Or.inr ⟨rfl, e, rfl, by omega⟩

theorem runDecisionsFor_eq_singleKeyRun (W maxReq : Nat) (k : List Char) :
    ∀ (trace : List (List Char × Nat)) (m : RateMap) (st : Option RateEntry)
      (t0 : Nat), (∀ q ∈ trace, t0 ≤ q.2) →
      (trace.map Prod.snd).Pairwise (· ≤ ·) →
      rateAgrees t0 W (m k) st →
      runDecisionsFor W maxReq k m trace
        = singleKeyRun W maxReq st (keyTimes k trace) := by
  intro trace
  induction trace with
  | nil => intro m st t0 _ _ _; rfl
  | cons q rest ih =>
    intro m st t0 hlb hmono hR
    obtain ⟨j, t⟩ := q
    have ht0 : t0 ≤ t := hlb (j, t) (List.mem_cons_self _ _)
    rw [List.map_cons] at hmono
    have hpair := List.pairwise_cons.mp hmono
    have hlb' : ∀ q ∈ rest, t ≤ q.2 := by
      intro q hq
      exact hpair.1 q.2 (List.mem_map_of_mem Prod.snd hq)
    have hmono' : (rest.map Prod.snd).Pairwise (· ≤ ·) := hpair.2
    by_cases hjk : j = k
    · subst hjk
      obtain ⟨hdec, hstate⟩ :=
        rateLimitStep_key W maxReq m j t t0 st ht0 hR
      simp only [runDecisionsFor, keyTimes, eq_self_iff_true, if_true,
        singleKeyRun]
      rw [hdec]
      congr 1
      exact ih (rateLimitStep W maxReq m j t).2 (singleKeyStep W maxReq st t).2
        t hlb' hmono' (Or.inl hstate)
    · have hR' := rateLimitStep_other W maxReq m j k hjk t t0 st ht0 hR
      simp only [runDecisionsFor, keyTimes, if_neg hjk]
      exact ih (rateLimitStep W maxReq m j t).2 st t hlb' hmono' hR'

theorem claimGo_countAllowed_le (W maxReq : Nat) (ts : List Nat) :
    ∀ start cnt, (∀ t ∈ ts, t - start ≤ W) → cnt ≤ maxReq →
      countAllowed (claimWindowGo W maxReq start cnt ts) ≤ maxReq - cnt := by
  induction ts with
  | nil => intro start cnt _ _; simp [claimWindowGo, countAllowed]
  | cons t ts ih =>
    intro start cnt hin hcnt
    have hin' : ∀ u ∈ ts, u - start ≤ W := fun u hu => hin u (by simp [hu])
    have ht : t - start ≤ W := hin t (by simp)
    have hreset : ¬(t - start > W) := by omega
    by_cases hmax : cnt ≥ maxReq
    · simp only [claimWindowGo, if_neg hreset, if_pos hmax]
      have hrec := ih start cnt hin' hcnt
      simp only [countAllowed, List.filter_cons] at hrec ⊢
      have hbeq : (RateDecision.limited (jsCeilDiv1000 (W - (t - start)))
          == RateDecision.allowed) = false := rfl
      rw [hbeq]
      simpa using hrec
    · simp only [claimWindowGo, if_neg hreset, if_neg hmax]
      have hrec := ih start (cnt + 1) hin' (by omega)
      simp only [countAllowed, List.filter_cons] at hrec ⊢
      simp at hrec ⊢
      omega

/-- C10: for every mixed request trace with nondecreasing timestamps and
every client address, the decisions the registration rate limiter
(`rateLimitValidation(15 * 60 * 1000, 3)`) hands to that address are
exactly the claim's window semantics - windows counted from the
address's first request of the window, later requests in a window
limited with `retryAfter` equal to the remaining seconds (rounded up),
a request after the window elapses starting a fresh count - and in
particular when all of an address's requests fall inside the window of
its first request, at most 3 of them are accepted. -/
theorem c10_rate_limit (trace : List (List Char × Nat)) (k : List Char)
    (hmono : (trace.map Prod.snd).Pairwise (· ≤ ·)) :
    runDecisionsFor registerWindowMs registerMaxAttempts k emptyRateMap trace
      = claimDecisions registerWindowMs registerMaxAttempts (keyTimes k trace) ∧
    (∀ t0 ts, keyTimes k trace = t0 :: ts →
      (∀ t ∈ ts, t - t0 ≤ registerWindowMs) →
      countAllowed (runDecisionsFor registerWindowMs registerMaxAttempts k
        emptyRateMap trace) ≤ registerMaxAttempts) ∧
    registerWindowMs = 15 * 60 * 1000 ∧ registerMaxAttempts = 3 := by
  have hiso := runDecisionsFor_eq_singleKeyRun registerWindowMs
    registerMaxAttempts k trace emptyRateMap none 0
    (fun q _ => Nat.zero_le _) hmono (Or.inl rfl)
  have hclaim := singleKeyRun_eq_claimDecisions registerWindowMs
    registerMaxAttempts (keyTimes k trace)
  refine ⟨hiso.trans hclaim, ?_, rfl, rfl⟩
  intro t0 ts hk hin
  rw [hiso, hk]
  have h1 : singleKeyRun registerWindowMs registerMaxAttempts none (t0 :: ts)
      = .allowed ::
          claimWindowGo registerWindowMs registerMaxAttempts t0 1 ts := by
    simp [singleKeyRun, singleKeyStep, singleKeyRun_some_eq_claimGo]
  rw [h1]
  have h2 := claimGo_countAllowed_le registerWindowMs registerMaxAttempts ts
    t0 1 hin (by decide)
  have hR : registerMaxAttempts = 3 := rfl
  simp only [countAllowed, List.filter_cons] at h2 ⊢
  simp at h2 ⊢
  omega

theorem c10_rate_limit_witness :
    runDecisionsFor registerWindowMs registerMaxAttempts "a".data emptyRateMap
        [("a".data, 0), ("a".data, 1000), ("b".data, 2000), ("a".data, 3000),
         ("a".data, 4000), ("a".data, 900500)]
      = claimDecisions registerWindowMs registerMaxAttempts
          (keyTimes "a".data
            [("a".data, 0), ("a".data, 1000), ("b".data, 2000), ("a".data, 3000),
             ("a".data, 4000), ("a".data, 900500)]) ∧
    countAllowed (runDecisionsFor registerWindowMs registerMaxAttempts "a".data
        emptyRateMap
        [("a".data, 0), ("a".data, 1), ("a".data, 2), ("a".data, 3),
         ("a".data, 4)]) ≤ registerMaxAttempts :=
  ⟨(c10_rate_limit
      [("a".data, 0), ("a".data, 1000), ("b".data, 2000), ("a".data, 3000),
       ("a".data, 4000), ("a".data, 900500)] "a".data (by decide)).1,
   (c10_rate_limit
      [("a".data, 0), ("a".data, 1), ("a".data, 2), ("a".data, 3),
       ("a".data, 4)] "a".data (by decide)).2.1 0 [1, 2, 3, 4]
      (by decide) (by decide)⟩
